import Mathlib

/-!
Verification of the render-payload construction and validation layer of the
securepdf frontend.  The definitions below are a shallow embedding of the
series_list-capable variant of buildFinalRenderPayload (the second payload
builder in the repository, the one that supersedes the singular-only one).

JavaScript runtime values that can reach the numeric and optional fields are
modelled by the inductive type JSVal.  A finite JS number is a rational;
NaN and the two infinities are collapsed into the single constructor
nonfinite, which is sound here because every comparison in the source is
guarded by Number.isFinite.  The JS builtin Number() is modelled by jsNumber;
for strings it covers plain decimal literals, which is the fragment the
source and the claims exercise.  A thrown Error is modelled by Except.error
carrying the exact message string of the source.
-/

/-- A weakly typed JavaScript value, as it may arrive in the parameter bag. -/
inductive JSVal where
  | null
  | undef
  | num (q : ℚ)
  | nonfinite
  | str (s : String)
  | bool (b : Bool)
deriving Repr, DecidableEq

/-- Digits of a decimal literal read as a natural number. -/
def digitsToNat (cs : List Char) : ℕ :=
  cs.foldl (fun a c => a * 10 + (c.toNat - 48)) 0

/-- The JS String.prototype.trim(): drop leading and trailing whitespace.
Implemented on the character list so that it reduces inside the kernel. -/
def jsTrim (s : String) : String :=
  String.mk (((s.data.dropWhile Char.isWhitespace).reverse.dropWhile Char.isWhitespace).reverse)

/-- The JS String.prototype.toLowerCase(), on the character list. -/
def jsToLowerCase (s : String) : String :=
  String.mk (s.data.map Char.toLower)

/-- Parse an unsigned decimal literal, with an optional fractional part. -/
def parseDecimalCore (cs : List Char) : Option ℚ :=
  let intPart := cs.takeWhile Char.isDigit
  let rest := cs.dropWhile Char.isDigit
  match rest with
  | [] => if intPart.isEmpty then none else some ((digitsToNat intPart : ℚ))
  | c :: frac =>
    if c == '.' && frac.all Char.isDigit && (!intPart.isEmpty || !frac.isEmpty) then
      some ((digitsToNat intPart : ℚ) + (digitsToNat frac : ℚ) / (10 : ℚ) ^ frac.length)
    else none

/-- The JS Number() coercion on a string: trimmed, empty means 0, otherwise a
signed decimal literal; anything else is NaN (none). -/
def parseJSNumberString (s : String) : Option ℚ :=
  let t := jsTrim s
  if t = "" then some 0
  else
    match t.toList with
    | '-' :: rest => (parseDecimalCore rest).map (fun q => -q)
    | '+' :: rest => parseDecimalCore rest
    | cs => parseDecimalCore cs

/-- The JS Number() coercion followed by a finiteness test: some q when
Number(v) is the finite number q, none when Number(v) is not finite. -/
def jsNumber : JSVal → Option ℚ
  | JSVal.null => some 0
  | JSVal.undef => none
  | JSVal.num q => some q
  | JSVal.nonfinite => none
  | JSVal.str s => parseJSNumberString s
  | JSVal.bool b => some (if b then 1 else 0)

/-- Source helper toFiniteNumberOrNull: null and undefined map to null
directly, every other value goes through Number() and the finiteness test. -/
def toFiniteNumberOrNull : JSVal → Option ℚ
  | JSVal.null => none
  | JSVal.undef => none
  | v => jsNumber v

/-- One entry of the seriesList parameter, shaped like the source input type.
String-typed fields are kept as strings; number-typed fields are kept as raw
JS values because the source re-coerces them defensively with Number(). -/
structure SeriesListItemInput where
  start : String
  count : JSVal
  fontFamily : String
  fontSizeMm : JSVal
  perLetterFontSizeMm : Option (List JSVal)
  xMm : JSVal
  yMm : JSVal
  letterSpacingMm : JSVal
  rotationDeg : JSVal
  color : String
  step : JSVal
deriving Repr, DecidableEq

/-- One entry of the customFonts parameter. -/
structure CustomFontInput where
  family : String
  dataUrl : String
  mime : String
deriving Repr, DecidableEq

/-- One entry of the overlays (raster) parameter. -/
structure RasterOverlayInput where
  dataUrl : String
  mime : String
  xMm : JSVal
  yMm : JSVal
  wMm : JSVal
  hMm : JSVal
  rotationDeg : JSVal
deriving Repr, DecidableEq

/-- One entry of the svgOverlays (vector) parameter. -/
structure SvgOverlayInput where
  xMm : JSVal
  yMm : JSVal
  scale : JSVal
  rotationDeg : JSVal
  svgS3Key : String
deriving Repr, DecidableEq

/-- The whole parameter bag of buildFinalRenderPayload.  Optional parameters
of the source signature are Option; absent optional numbers are JSVal.undef. -/
structure Params where
  jobId : String
  documentId : String
  objectWidthMm : JSVal
  objectHeightMm : JSVal
  objectXMm : JSVal
  objectYMm : JSVal
  objectAlignment : String
  objectRotationDeg : JSVal
  objectKeepProportions : JSVal
  objectCutMarginMm : JSVal
  seriesStart : Option String
  seriesCount : JSVal
  seriesXMm : JSVal
  seriesYMm : JSVal
  seriesFontFamily : Option String
  seriesFontSizeMm : JSVal
  perLetterFontSizeMm : Option (List JSVal)
  seriesLetterSpacingMm : JSVal
  seriesRotationDeg : JSVal
  seriesColor : Option String
  seriesStep : JSVal
  seriesList : Option (List SeriesListItemInput)
  customFonts : Option (List CustomFontInput)
  overlays : Option (List RasterOverlayInput)
  svgOverlays : Option (List SvgOverlayInput)
deriving Repr, DecidableEq

/-- An emitted series object (both the singular series field and the entries
of series_list have this shape).  A numeric field holds none when the JS
value there would be NaN; step and per_letter_font_size_mm hold none when the
corresponding key is absent from the emitted object. -/
structure SeriesOut where
  start : String
  count : Option ℚ
  font_family : String
  font_size_mm : Option ℚ
  per_letter_font_size_mm : Option (List ℚ)
  x_mm : Option ℚ
  y_mm : Option ℚ
  letter_spacing_mm : Option ℚ
  rotation_deg : Option ℚ
  color : String
  step : Option ℚ
deriving Repr, DecidableEq

/-- An emitted custom font entry. -/
structure CustomFontOut where
  family : String
  data_url : String
  mime : String
deriving Repr, DecidableEq

/-- An emitted raster overlay entry. -/
structure RasterOverlayOut where
  data_url : String
  mime : String
  x_mm : Option ℚ
  y_mm : Option ℚ
  w_mm : Option ℚ
  h_mm : Option ℚ
  rotation_deg : Option ℚ
deriving Repr, DecidableEq

/-- An emitted vector overlay entry (the source tags it with type svg). -/
structure SvgOverlayOut where
  x_mm : Option ℚ
  y_mm : Option ℚ
  scale : Option ℚ
  rotation_deg : Option ℚ
  svg_s3_key : String
deriving Repr, DecidableEq

/-- The tagged union of the two overlay kinds, in the emitted overlays list. -/
inductive OverlayOut where
  | raster (o : RasterOverlayOut)
  | svg (o : SvgOverlayOut)
deriving Repr, DecidableEq

/-- The emitted object_mm block. -/
structure ObjectMmOut where
  w : ℚ
  h : ℚ
  x_mm : Option ℚ
  y_mm : Option ℚ
  alignment : String
  rotation_deg : ℚ
  keep_proportions : Bool
  cut_margin_mm : ℚ
deriving Repr, DecidableEq

/-- The full payload returned on success.  An optional collection field holds
none exactly when the corresponding key is absent from the returned object. -/
structure FinalRenderPayload where
  job_id : String
  svg_s3_key : String
  custom_fonts : Option (List CustomFontOut)
  overlays : Option (List OverlayOut)
  object_mm : ObjectMmOut
  series : Option SeriesOut
  series_list : Option (List SeriesOut)
deriving Repr, DecidableEq

/-! The coerced values of the flat parameters, named after the corresponding
local constants of the source function. -/

/-- Source: String(params.jobId or empty).trim(). -/
def jobIdStr (p : Params) : String := jsTrim p.jobId

/-- Source: String(params.documentId or empty).trim(). -/
def documentIdStr (p : Params) : String := jsTrim p.documentId

/-- Source: toFiniteNumberOrNull(params.objectWidthMm). -/
def objectW (p : Params) : Option ℚ := toFiniteNumberOrNull p.objectWidthMm

/-- Source: toFiniteNumberOrNull(params.objectHeightMm). -/
def objectH (p : Params) : Option ℚ := toFiniteNumberOrNull p.objectHeightMm

/-- Source: the alignment enum coercion with default center. -/
def alignmentStr (p : Params) : String :=
  let alignmentRaw := jsToLowerCase (jsTrim p.objectAlignment)
  if alignmentRaw = "left" ∨ alignmentRaw = "right" ∨ alignmentRaw = "center" then
    alignmentRaw
  else "center"

/-- Source: Number(params.objectRotationDeg) with fallback 0 when not finite. -/
def objectRotationVal (p : Params) : ℚ := (jsNumber p.objectRotationDeg).getD 0

/-- Source: only an actual boolean is accepted, anything else becomes false. -/
def keepProportionsVal (p : Params) : Bool :=
  match p.objectKeepProportions with
  | JSVal.bool b => b
  | _ => false

/-- Source: Number.isFinite(raw) and raw at least 0, otherwise fallback 0. -/
def cutMarginMmVal (p : Params) : ℚ :=
  let cutMarginRaw := jsNumber p.objectCutMarginMm
  if cutMarginRaw.isSome = true ∧ 0 ≤ cutMarginRaw.getD 0 then cutMarginRaw.getD 0 else 0

/-- Source: String(params.seriesStart or empty), not trimmed. -/
def seriesStartStr (p : Params) : String := p.seriesStart.getD ""

/-- Source: Number(params.seriesCount). -/
def seriesCountNum (p : Params) : Option ℚ := jsNumber p.seriesCount

/-- Source: toFiniteNumberOrNull(params.seriesXMm). -/
def seriesXNum (p : Params) : Option ℚ := toFiniteNumberOrNull p.seriesXMm

/-- Source: toFiniteNumberOrNull(params.seriesYMm). -/
def seriesYNum (p : Params) : Option ℚ := toFiniteNumberOrNull p.seriesYMm

/-- Source: String(params.seriesFontFamily or empty). -/
def fontFamilyStr (p : Params) : String := p.seriesFontFamily.getD ""

/-- Source: Number(params.seriesFontSizeMm). -/
def fontSizeNum (p : Params) : Option ℚ := jsNumber p.seriesFontSizeMm

/-- Source: map Number over a per-letter array and keep finite positives. -/
def filterPerLetter (l : List JSVal) : List ℚ :=
  (l.filterMap jsNumber).filter (fun v => decide (0 < v))

/-- Source: Number(params.seriesLetterSpacingMm). -/
def letterSpacingNum (p : Params) : Option ℚ := jsNumber p.seriesLetterSpacingMm

/-- Source: Number(params.seriesRotationDeg). -/
def seriesRotationNum (p : Params) : Option ℚ := jsNumber p.seriesRotationDeg

/-- Source: String(params.seriesColor or empty).trim(). -/
def colorStr (p : Params) : String := jsTrim (p.seriesColor.getD "")

/-- Source: Number(params.seriesStep). -/
def stepNum (p : Params) : Option ℚ := jsNumber p.seriesStep

/-! The per-item mapping and filtering of the optional collections. -/

/-- The map step over one seriesList entry: defensive coercion of every
field, trimming of the color, and the conditional step key (present only for
a finite step different from 1). -/
def mapSeriesItem (s : SeriesListItemInput) : SeriesOut :=
  { start := s.start
    count := jsNumber s.count
    font_family := s.fontFamily
    font_size_mm := jsNumber s.fontSizeMm
    per_letter_font_size_mm := s.perLetterFontSizeMm.map filterPerLetter
    x_mm := jsNumber s.xMm
    y_mm := jsNumber s.yMm
    letter_spacing_mm := jsNumber s.letterSpacingMm
    rotation_deg := jsNumber s.rotationDeg
    color := jsTrim s.color
    step := match jsNumber s.step with
      | some q => if q = 1 then none else some q
      | none => none }

/-- The filter step over one mapped seriesList entry, in source order:
non-empty start, finite positive count, non-empty font family, finite
positive font size, finite coordinates, finite spacing and rotation, and a
non-empty trimmed color. -/
def keepSeriesItem (s : SeriesOut) : Bool :=
  s.start != "" && s.count.isSome && decide (0 < s.count.getD 0) &&
  s.font_family != "" && s.font_size_mm.isSome && decide (0 < s.font_size_mm.getD 0) &&
  s.x_mm.isSome && s.y_mm.isSome && s.letter_spacing_mm.isSome && s.rotation_deg.isSome &&
  s.color != ""

/-- The surviving seriesList entries: none when no list parameter was given,
otherwise the mapped and filtered list (possibly empty). -/
def survivingSeriesList (p : Params) : Option (List SeriesOut) :=
  p.seriesList.map (fun l => (l.map mapSeriesItem).filter keepSeriesItem)

/-- The surviving entries of a concrete list input. -/
def survivors (l : List SeriesListItemInput) : List SeriesOut :=
  (l.map mapSeriesItem).filter keepSeriesItem

/-- Source: Boolean(series_list and series_list.length). -/
def hasSeriesListB (p : Params) : Bool :=
  match survivingSeriesList p with
  | some l => !l.isEmpty
  | none => false

/-- The singular-series path is taken exactly when no list entry survived. -/
def singularPath (p : Params) : Prop := hasSeriesListB p = false

/-- The map step over one custom font entry. -/
def mapCustomFont (f : CustomFontInput) : CustomFontOut :=
  { family := f.family, data_url := f.dataUrl, mime := f.mime }

/-- The filter step over one custom font entry: non-empty family and data
url (the mime is not checked). -/
def keepCustomFont (f : CustomFontOut) : Bool :=
  f.family != "" && f.data_url != ""

/-- The map step over one raster overlay entry. -/
def mapRasterOverlay (o : RasterOverlayInput) : RasterOverlayOut :=
  { data_url := o.dataUrl, mime := o.mime
    x_mm := jsNumber o.xMm, y_mm := jsNumber o.yMm
    w_mm := jsNumber o.wMm, h_mm := jsNumber o.hMm
    rotation_deg := jsNumber o.rotationDeg }

/-- The filter step over one raster overlay, in source order: non-empty data
url, finite coordinates and dimensions, positive dimensions, finite
rotation. -/
def keepRasterOverlay (o : RasterOverlayOut) : Bool :=
  o.data_url != "" && o.x_mm.isSome && o.y_mm.isSome && o.w_mm.isSome && o.h_mm.isSome &&
  decide (0 < o.w_mm.getD 0) && decide (0 < o.h_mm.getD 0) && o.rotation_deg.isSome

/-- The map step over one vector overlay entry. -/
def mapSvgOverlay (o : SvgOverlayInput) : SvgOverlayOut :=
  { x_mm := jsNumber o.xMm, y_mm := jsNumber o.yMm
    scale := jsNumber o.scale, rotation_deg := jsNumber o.rotationDeg
    svg_s3_key := o.svgS3Key }

/-- The filter step over one vector overlay, in source order: finite
coordinates, finite positive scale, finite rotation, non-empty storage key. -/
def keepSvgOverlay (o : SvgOverlayOut) : Bool :=
  o.x_mm.isSome && o.y_mm.isSome && o.scale.isSome && decide (0 < o.scale.getD 0) &&
  o.rotation_deg.isSome && o.svg_s3_key != ""

/-- The mapped and filtered custom fonts (none when the parameter is absent). -/
def customFontsOut (p : Params) : Option (List CustomFontOut) :=
  p.customFonts.map (fun l => (l.map mapCustomFont).filter keepCustomFont)

/-- The mapped and filtered raster overlays (empty when absent). -/
def imageOverlaysOut (p : Params) : List RasterOverlayOut :=
  match p.overlays with
  | some l => (l.map mapRasterOverlay).filter keepRasterOverlay
  | none => []

/-- The mapped and filtered vector overlays (empty when absent). -/
def svgOverlaysOut (p : Params) : List SvgOverlayOut :=
  match p.svgOverlays with
  | some l => (l.map mapSvgOverlay).filter keepSvgOverlay
  | none => []

/-- The combined overlay sequence: raster entries first, vector entries
second, each group in input order. -/
def overlaysOut (p : Params) : List OverlayOut :=
  (imageOverlaysOut p).map OverlayOut.raster ++ (svgOverlaysOut p).map OverlayOut.svg

/-! The validation conditions, named after the source checks and stated in
source order. -/

/-- Check 1: the trimmed job id is non-empty. -/
def jobIdOk (p : Params) : Prop := jobIdStr p ≠ ""

/-- Check 2: the trimmed document id is non-empty. -/
def documentIdOk (p : Params) : Prop := documentIdStr p ≠ ""

/-- Check 3: object width and height are present, finite and positive. -/
def objectDimsOk (p : Params) : Prop :=
  (objectW p).isSome = true ∧ 0 < (objectW p).getD 0 ∧
  (objectH p).isSome = true ∧ 0 < (objectH p).getD 0

/-- Singular check 1: the series start string is non-empty. -/
def startOk (p : Params) : Prop := seriesStartStr p ≠ ""

/-- Singular check 2: the series count is finite and positive. -/
def countOk (p : Params) : Prop :=
  (seriesCountNum p).isSome = true ∧ 0 < (seriesCountNum p).getD 0

/-- Singular check 3: both series coordinates are present. -/
def coordsOk (p : Params) : Prop :=
  (seriesXNum p).isSome = true ∧ (seriesYNum p).isSome = true

/-- Singular check 4: the font family is non-empty. -/
def fontFamilyOk (p : Params) : Prop := fontFamilyStr p ≠ ""

/-- Singular check 5: the font size is finite and positive. -/
def fontSizeOk (p : Params) : Prop :=
  (fontSizeNum p).isSome = true ∧ 0 < (fontSizeNum p).getD 0

/-- Singular check 6: the letter spacing is a finite number. -/
def spacingOk (p : Params) : Prop := (letterSpacingNum p).isSome = true

/-- Singular check 7: the series rotation is a finite number. -/
def rotationOk (p : Params) : Prop := (seriesRotationNum p).isSome = true

/-- Singular check 8: the trimmed color is non-empty. -/
def colorOk (p : Params) : Prop := colorStr p ≠ ""

instance (p : Params) : Decidable (jobIdOk p) := by unfold jobIdOk; infer_instance

instance (p : Params) : Decidable (documentIdOk p) := by unfold documentIdOk; infer_instance

instance (p : Params) : Decidable (objectDimsOk p) := by unfold objectDimsOk; infer_instance

instance (p : Params) : Decidable (startOk p) := by unfold startOk; infer_instance

instance (p : Params) : Decidable (countOk p) := by unfold countOk; infer_instance

instance (p : Params) : Decidable (coordsOk p) := by unfold coordsOk; infer_instance

instance (p : Params) : Decidable (fontFamilyOk p) := by unfold fontFamilyOk; infer_instance

instance (p : Params) : Decidable (fontSizeOk p) := by unfold fontSizeOk; infer_instance

instance (p : Params) : Decidable (spacingOk p) := by unfold spacingOk; infer_instance

instance (p : Params) : Decidable (rotationOk p) := by unfold rotationOk; infer_instance

instance (p : Params) : Decidable (colorOk p) := by unfold colorOk; infer_instance

instance (p : Params) : Decidable (singularPath p) := by unfold singularPath; infer_instance

/-- All eight singular-series checks together. -/
def seriesFieldsOk (p : Params) : Prop :=
  startOk p ∧ countOk p ∧ coordsOk p ∧ fontFamilyOk p ∧ fontSizeOk p ∧
  spacingOk p ∧ rotationOk p ∧ colorOk p

instance (p : Params) : Decidable (seriesFieldsOk p) := by unfold seriesFieldsOk; infer_instance

/-! Assembly of the returned payload. -/

/-- The singular series object assembled from the flat parameters (emitted
only on the singular path, where the eight checks above have passed). -/
def singularSeriesOut (p : Params) : SeriesOut :=
  { start := seriesStartStr p
    count := seriesCountNum p
    font_family := fontFamilyStr p
    font_size_mm := fontSizeNum p
    per_letter_font_size_mm :=
      match p.perLetterFontSizeMm.map filterPerLetter with
      | some l => if l.isEmpty then none else some l
      | none => none
    x_mm := seriesXNum p
    y_mm := seriesYNum p
    letter_spacing_mm := letterSpacingNum p
    rotation_deg := seriesRotationNum p
    color := colorStr p
    step := match stepNum p with
      | some q => if q = 1 then none else some q
      | none => none }

/-- The emitted object_mm block. -/
def objectMmOut (p : Params) : ObjectMmOut :=
  { w := (objectW p).getD 0
    h := (objectH p).getD 0
    x_mm := toFiniteNumberOrNull p.objectXMm
    y_mm := toFiniteNumberOrNull p.objectYMm
    alignment := alignmentStr p
    rotation_deg := objectRotationVal p
    keep_proportions := keepProportionsVal p
    cut_margin_mm := cutMarginMmVal p }

/-- The final return value of the source (reached only after every check has
passed).  Optional collections are emitted only when non-empty; on the plural
path series_list is emitted together with a series field holding the first
surviving entry, on the singular path series_list is absent. -/
def assemblePayload (p : Params) : FinalRenderPayload :=
  { job_id := jobIdStr p
    svg_s3_key := "documents/raw/" ++ documentIdStr p ++ ".svg"
    custom_fonts :=
      match customFontsOut p with
      | some l => if l.isEmpty then none else some l
      | none => none
    overlays := if (overlaysOut p).isEmpty then none else some (overlaysOut p)
    object_mm := objectMmOut p
    series :=
      if hasSeriesListB p then ((survivingSeriesList p).getD []).head?
      else some (singularSeriesOut p)
    series_list := if hasSeriesListB p then survivingSeriesList p else none }

/-- The shallow embedding of buildFinalRenderPayload: the checks in source
order, each aborting with the exact thrown message, then the assembled
payload. -/
def buildFinalRenderPayload (p : Params) : Except String FinalRenderPayload :=
  if ¬ jobIdOk p then Except.error "job_id is required"
  else if ¬ documentIdOk p then Except.error "documentId is required"
  else if ¬ objectDimsOk p then
    Except.error "object_mm.w and object_mm.h are required and must be > 0"
  else if singularPath p ∧ ¬ startOk p then Except.error "series.start is required"
  else if singularPath p ∧ ¬ countOk p then
    Except.error "series.count is required and must be > 0"
  else if singularPath p ∧ ¬ coordsOk p then
    Except.error "series requires object_mm coordinates (missing seriesXMm/seriesYMm)"
  else if singularPath p ∧ ¬ fontFamilyOk p then Except.error "series.font_family is required"
  else if singularPath p ∧ ¬ fontSizeOk p then
    Except.error "series.font_size_mm must be a number > 0"
  else if singularPath p ∧ ¬ spacingOk p then
    Except.error "series.letter_spacing_mm must be a number"
  else if singularPath p ∧ ¬ rotationOk p then
    Except.error "series.rotation_deg must be a number"
  else if singularPath p ∧ ¬ colorOk p then Except.error "series.color is required"
  else Except.ok (assemblePayload p)

/-- Whether the builder returns a payload rather than throwing. -/
def buildSucceeds (p : Params) : Bool :=
  match buildFinalRenderPayload p with
  | Except.ok _ => true
  | Except.error _ => false

/-- Decidable equality for results, used to evaluate the builder on the
concrete witness inputs. -/
instance : DecidableEq (Except String FinalRenderPayload) := fun a b =>
  match a, b with
  | Except.ok x, Except.ok y =>
    if h : x = y then Decidable.isTrue (by rw [h])
    else Decidable.isFalse (by intro hc; cases hc; exact h rfl)
  | Except.error x, Except.error y =>
    if h : x = y then Decidable.isTrue (by rw [h])
    else Decidable.isFalse (by intro hc; cases hc; exact h rfl)
  | Except.ok _, Except.error _ => Decidable.isFalse (by intro hc; cases hc)
  | Except.error _, Except.ok _ => Decidable.isFalse (by intro hc; cases hc)

/-! Shared lemmas about the builder. -/

/-- An empty trimmed job id aborts first. -/
theorem build_error_job {p : Params} (h : ¬ jobIdOk p) :
    buildFinalRenderPayload p = Except.error "job_id is required" := by
  unfold buildFinalRenderPayload
  rw [if_pos h]

/-- An empty trimmed document id aborts second. -/
theorem build_error_document {p : Params} (h1 : jobIdOk p) (h : ¬ documentIdOk p) :
    buildFinalRenderPayload p = Except.error "documentId is required" := by
  unfold buildFinalRenderPayload
  rw [if_neg (not_not_intro h1), if_pos h]

/-- Missing or non-positive object dimensions abort third. -/
theorem build_error_dims {p : Params} (h1 : jobIdOk p) (h2 : documentIdOk p)
    (h : ¬ objectDimsOk p) :
    buildFinalRenderPayload p =
      Except.error "object_mm.w and object_mm.h are required and must be > 0" := by
  unfold buildFinalRenderPayload
  rw [if_neg (not_not_intro h1), if_neg (not_not_intro h2), if_pos h]

/-- On the singular path, an empty series start aborts next. -/
theorem build_error_start {p : Params} (h1 : jobIdOk p) (h2 : documentIdOk p)
    (h3 : objectDimsOk p) (hs : singularPath p) (h : ¬ startOk p) :
    buildFinalRenderPayload p = Except.error "series.start is required" := by
  unfold buildFinalRenderPayload
  rw [if_neg (not_not_intro h1), if_neg (not_not_intro h2), if_neg (not_not_intro h3),
      if_pos ⟨hs, h⟩]

/-- On the singular path, a missing or non-positive count aborts next. -/
theorem build_error_count {p : Params} (h1 : jobIdOk p) (h2 : documentIdOk p)
    (h3 : objectDimsOk p) (hs : singularPath p) (h4 : startOk p) (h : ¬ countOk p) :
    buildFinalRenderPayload p = Except.error "series.count is required and must be > 0" := by
  unfold buildFinalRenderPayload
  rw [if_neg (not_not_intro h1), if_neg (not_not_intro h2), if_neg (not_not_intro h3),
      if_neg (fun hc => hc.2 h4), if_pos ⟨hs, h⟩]

/-- On the singular path, a missing coordinate aborts next. -/
theorem build_error_coords {p : Params} (h1 : jobIdOk p) (h2 : documentIdOk p)
    (h3 : objectDimsOk p) (hs : singularPath p) (h4 : startOk p) (h5 : countOk p)
    (h : ¬ coordsOk p) :
    buildFinalRenderPayload p =
      Except.error "series requires object_mm coordinates (missing seriesXMm/seriesYMm)" := by
  unfold buildFinalRenderPayload
  rw [if_neg (not_not_intro h1), if_neg (not_not_intro h2), if_neg (not_not_intro h3),
      if_neg (fun hc => hc.2 h4), if_neg (fun hc => hc.2 h5), if_pos ⟨hs, h⟩]

/-- On the singular path, an empty font family aborts next. -/
theorem build_error_fontFamily {p : Params} (h1 : jobIdOk p) (h2 : documentIdOk p)
    (h3 : objectDimsOk p) (hs : singularPath p) (h4 : startOk p) (h5 : countOk p)
    (h6 : coordsOk p) (h : ¬ fontFamilyOk p) :
    buildFinalRenderPayload p = Except.error "series.font_family is required" := by
  unfold buildFinalRenderPayload
  rw [if_neg (not_not_intro h1), if_neg (not_not_intro h2), if_neg (not_not_intro h3),
      if_neg (fun hc => hc.2 h4), if_neg (fun hc => hc.2 h5), if_neg (fun hc => hc.2 h6),
      if_pos ⟨hs, h⟩]

/-- On the singular path, a missing or non-positive font size aborts next. -/
theorem build_error_fontSize {p : Params} (h1 : jobIdOk p) (h2 : documentIdOk p)
    (h3 : objectDimsOk p) (hs : singularPath p) (h4 : startOk p) (h5 : countOk p)
    (h6 : coordsOk p) (h7 : fontFamilyOk p) (h : ¬ fontSizeOk p) :
    buildFinalRenderPayload p = Except.error "series.font_size_mm must be a number > 0" := by
  unfold buildFinalRenderPayload
  rw [if_neg (not_not_intro h1), if_neg (not_not_intro h2), if_neg (not_not_intro h3),
      if_neg (fun hc => hc.2 h4), if_neg (fun hc => hc.2 h5), if_neg (fun hc => hc.2 h6),
      if_neg (fun hc => hc.2 h7), if_pos ⟨hs, h⟩]

/-- On the singular path, a non-finite letter spacing aborts next. -/
theorem build_error_spacing {p : Params} (h1 : jobIdOk p) (h2 : documentIdOk p)
    (h3 : objectDimsOk p) (hs : singularPath p) (h4 : startOk p) (h5 : countOk p)
    (h6 : coordsOk p) (h7 : fontFamilyOk p) (h8 : fontSizeOk p) (h : ¬ spacingOk p) :
    buildFinalRenderPayload p = Except.error "series.letter_spacing_mm must be a number" := by
  unfold buildFinalRenderPayload
  rw [if_neg (not_not_intro h1), if_neg (not_not_intro h2), if_neg (not_not_intro h3),
      if_neg (fun hc => hc.2 h4), if_neg (fun hc => hc.2 h5), if_neg (fun hc => hc.2 h6),
      if_neg (fun hc => hc.2 h7), if_neg (fun hc => hc.2 h8), if_pos ⟨hs, h⟩]

/-- On the singular path, a non-finite rotation aborts next. -/
theorem build_error_rotationDeg {p : Params} (h1 : jobIdOk p) (h2 : documentIdOk p)
    (h3 : objectDimsOk p) (hs : singularPath p) (h4 : startOk p) (h5 : countOk p)
    (h6 : coordsOk p) (h7 : fontFamilyOk p) (h8 : fontSizeOk p) (h9 : spacingOk p)
    (h : ¬ rotationOk p) :
    buildFinalRenderPayload p = Except.error "series.rotation_deg must be a number" := by
  unfold buildFinalRenderPayload
  rw [if_neg (not_not_intro h1), if_neg (not_not_intro h2), if_neg (not_not_intro h3),
      if_neg (fun hc => hc.2 h4), if_neg (fun hc => hc.2 h5), if_neg (fun hc => hc.2 h6),
      if_neg (fun hc => hc.2 h7), if_neg (fun hc => hc.2 h8), if_neg (fun hc => hc.2 h9),
      if_pos ⟨hs, h⟩]

/-- On the singular path, an empty trimmed color aborts last. -/
theorem build_error_color {p : Params} (h1 : jobIdOk p) (h2 : documentIdOk p)
    (h3 : objectDimsOk p) (hs : singularPath p) (h4 : startOk p) (h5 : countOk p)
    (h6 : coordsOk p) (h7 : fontFamilyOk p) (h8 : fontSizeOk p) (h9 : spacingOk p)
    (h10 : rotationOk p) (h : ¬ colorOk p) :
    buildFinalRenderPayload p = Except.error "series.color is required" := by
  unfold buildFinalRenderPayload
  rw [if_neg (not_not_intro h1), if_neg (not_not_intro h2), if_neg (not_not_intro h3),
      if_neg (fun hc => hc.2 h4), if_neg (fun hc => hc.2 h5), if_neg (fun hc => hc.2 h6),
      if_neg (fun hc => hc.2 h7), if_neg (fun hc => hc.2 h8), if_neg (fun hc => hc.2 h9),
      if_neg (fun hc => hc.2 h10), if_pos ⟨hs, h⟩]

/-- The builder succeeds when the three request-level checks pass and at
least one seriesList entry survived (the plural path). -/
theorem build_ok_plural {p : Params}
    (h1 : jobIdOk p) (h2 : documentIdOk p) (h3 : objectDimsOk p)
    (h4 : hasSeriesListB p = true) :
    buildFinalRenderPayload p = Except.ok (assemblePayload p) := by
  have hs : ¬ singularPath p := by
    unfold singularPath
    rw [h4]
    exact fun hc => Bool.noConfusion hc
  unfold buildFinalRenderPayload
  rw [if_neg (not_not_intro h1), if_neg (not_not_intro h2), if_neg (not_not_intro h3),
      if_neg (fun hc => hs hc.1), if_neg (fun hc => hs hc.1), if_neg (fun hc => hs hc.1),
      if_neg (fun hc => hs hc.1), if_neg (fun hc => hs hc.1), if_neg (fun hc => hs hc.1),
      if_neg (fun hc => hs hc.1), if_neg (fun hc => hs hc.1)]

/-- The builder succeeds when the three request-level checks and the eight
singular-series checks all pass (regardless of the path taken). -/
theorem build_ok_singular {p : Params}
    (h1 : jobIdOk p) (h2 : documentIdOk p) (h3 : objectDimsOk p)
    (h4 : seriesFieldsOk p) :
    buildFinalRenderPayload p = Except.ok (assemblePayload p) := by
  obtain ⟨k1, k2, k3, k4, k5, k6, k7, k8⟩ := h4
  unfold buildFinalRenderPayload
  rw [if_neg (not_not_intro h1), if_neg (not_not_intro h2), if_neg (not_not_intro h3),
      if_neg (fun hc => hc.2 k1), if_neg (fun hc => hc.2 k2), if_neg (fun hc => hc.2 k3),
      if_neg (fun hc => hc.2 k4), if_neg (fun hc => hc.2 k5), if_neg (fun hc => hc.2 k6),
      if_neg (fun hc => hc.2 k7), if_neg (fun hc => hc.2 k8)]

/-- A successful builder run means buildSucceeds. -/
theorem buildSucceeds_of_ok {p : Params} {out : FinalRenderPayload}
    (h : buildFinalRenderPayload p = Except.ok out) : buildSucceeds p = true := by
  unfold buildSucceeds
  rw [h]

/-- A failing builder run means buildSucceeds is false. -/
theorem buildSucceeds_false_of_error {p : Params} {e : String}
    (h : buildFinalRenderPayload p = Except.error e) : buildSucceeds p = false := by
  unfold buildSucceeds
  rw [h]

/-- The plural path is the negation of the singular path. -/
theorem not_singularPath_iff {p : Params} : ¬ singularPath p ↔ hasSeriesListB p = true := by
  unfold singularPath
  cases hb : hasSeriesListB p
  · constructor
    · intro hc
      exact absurd rfl hc
    · intro hc
      exact Bool.noConfusion hc
  · constructor
    · intro _
      rfl
    · intro _ hc
      exact Bool.noConfusion hc

/-- Exact characterization of success: the request-level checks must pass,
and the singular-series checks must pass whenever the singular path is
taken. -/
theorem buildSucceeds_iff (p : Params) :
    buildSucceeds p = true ↔
      jobIdOk p ∧ documentIdOk p ∧ objectDimsOk p ∧ (singularPath p → seriesFieldsOk p) := by
  constructor
  · intro h
    have hfalse : ∀ e, buildFinalRenderPayload p = Except.error e → False := by
      intro e he
      rw [buildSucceeds_false_of_error he] at h
      exact Bool.noConfusion h
    by_cases h1 : jobIdOk p
    case neg => exact (hfalse _ (build_error_job h1)).elim
    by_cases h2 : documentIdOk p
    case neg => exact (hfalse _ (build_error_document h1 h2)).elim
    by_cases h3 : objectDimsOk p
    case neg => exact (hfalse _ (build_error_dims h1 h2 h3)).elim
    refine ⟨h1, h2, h3, fun hs => ?_⟩
    by_cases h4 : startOk p
    case neg => exact (hfalse _ (build_error_start h1 h2 h3 hs h4)).elim
    by_cases h5 : countOk p
    case neg => exact (hfalse _ (build_error_count h1 h2 h3 hs h4 h5)).elim
    by_cases h6 : coordsOk p
    case neg => exact (hfalse _ (build_error_coords h1 h2 h3 hs h4 h5 h6)).elim
    by_cases h7 : fontFamilyOk p
    case neg => exact (hfalse _ (build_error_fontFamily h1 h2 h3 hs h4 h5 h6 h7)).elim
    by_cases h8 : fontSizeOk p
    case neg => exact (hfalse _ (build_error_fontSize h1 h2 h3 hs h4 h5 h6 h7 h8)).elim
    by_cases h9 : spacingOk p
    case neg => exact (hfalse _ (build_error_spacing h1 h2 h3 hs h4 h5 h6 h7 h8 h9)).elim
    by_cases h10 : rotationOk p
    case neg => exact (hfalse _ (build_error_rotationDeg h1 h2 h3 hs h4 h5 h6 h7 h8 h9 h10)).elim
    by_cases h11 : colorOk p
    case neg => exact (hfalse _ (build_error_color h1 h2 h3 hs h4 h5 h6 h7 h8 h9 h10 h11)).elim
    exact ⟨h4, h5, h6, h7, h8, h9, h10, h11⟩
  · rintro ⟨h1, h2, h3, h4⟩
    by_cases hs : singularPath p
    · exact buildSucceeds_of_ok (build_ok_singular h1 h2 h3 (h4 hs))
    · exact buildSucceeds_of_ok (build_ok_plural h1 h2 h3 (not_singularPath_iff.mp hs))

/-- Every successful run returns exactly the assembled payload. -/
theorem build_ok_eq {p : Params} {out : FinalRenderPayload}
    (h : buildFinalRenderPayload p = Except.ok out) : out = assemblePayload p := by
  obtain ⟨h1, h2, h3, h4⟩ := (buildSucceeds_iff p).mp (buildSucceeds_of_ok h)
  by_cases hs : singularPath p
  · have hb := build_ok_singular h1 h2 h3 (h4 hs)
    rw [hb] at h
    exact (Except.ok.inj h).symm
  · have hb := build_ok_plural h1 h2 h3 (not_singularPath_iff.mp hs)
    rw [hb] at h
    exact (Except.ok.inj h).symm

/-- Two parameter bags on which the checks agree have the same success
status. -/
theorem buildSucceeds_eq_iff {p q : Params}
    (h : buildSucceeds p = true ↔ buildSucceeds q = true) :
    buildSucceeds p = buildSucceeds q := by
  cases hp : buildSucceeds p <;> cases hq : buildSucceeds q
  · rfl
  · rw [hp, hq] at h
    exact Bool.noConfusion (h.mpr rfl)
  · rw [hp, hq] at h
    exact Bool.noConfusion (h.mp rfl)
  · rfl

/-- With a list parameter present, the plural path is taken exactly when
some entry survives the per-entry filter. -/
theorem hasSeriesListB_some {p : Params} {l : List SeriesListItemInput}
    (hl : p.seriesList = some l) :
    hasSeriesListB p = true ↔ survivors l ≠ [] := by
  unfold hasSeriesListB survivingSeriesList survivors
  rw [hl]
  simp [List.isEmpty_iff]

/-- With a list parameter present, the surviving list is the mapped and
filtered input list. -/
theorem survivingSeriesList_some {p : Params} {l : List SeriesListItemInput}
    (hl : p.seriesList = some l) :
    survivingSeriesList p = some (survivors l) := by
  unfold survivingSeriesList survivors
  rw [hl]
  rfl

/-! Concrete inputs used to instantiate the claims. -/

/-- A fully valid singular-series parameter bag. -/
def sampleParams : Params :=
  { jobId := "j1", documentId := "d1",
    objectWidthMm := JSVal.num 100, objectHeightMm := JSVal.num 50,
    objectXMm := JSVal.null, objectYMm := JSVal.null,
    objectAlignment := "", objectRotationDeg := JSVal.undef,
    objectKeepProportions := JSVal.bool true, objectCutMarginMm := JSVal.undef,
    seriesStart := some "A001", seriesCount := JSVal.num 5,
    seriesXMm := JSVal.num 10, seriesYMm := JSVal.num 10,
    seriesFontFamily := some "Arial", seriesFontSizeMm := JSVal.num 4,
    perLetterFontSizeMm := none,
    seriesLetterSpacingMm := JSVal.num 0, seriesRotationDeg := JSVal.num 0,
    seriesColor := some "#000", seriesStep := JSVal.undef,
    seriesList := none, customFonts := none, overlays := none, svgOverlays := none }

/-- A seriesList entry satisfying every per-entry invariant. -/
def itemGood : SeriesListItemInput :=
  { start := "A1", count := JSVal.num 3, fontFamily := "Arial", fontSizeMm := JSVal.num 4,
    perLetterFontSizeMm := none, xMm := JSVal.num 1, yMm := JSVal.num 1,
    letterSpacingMm := JSVal.num 0, rotationDeg := JSVal.num 0, color := "#000",
    step := JSVal.undef }

/-- A seriesList entry violating the positive-count invariant. -/
def itemBad : SeriesListItemInput := { itemGood with count := JSVal.num 0 }

/-- A seriesList entry whose x coordinate is null. -/
def itemNull : SeriesListItemInput := { itemGood with xMm := JSVal.null }

/-- A valid raster overlay input. -/
def rasterIn : RasterOverlayInput :=
  { dataUrl := "data:image/png;base64,x", mime := "image/png", xMm := JSVal.num 5,
    yMm := JSVal.num 5, wMm := JSVal.num 20, hMm := JSVal.num 10, rotationDeg := JSVal.num 0 }

/-- A raster overlay input violating the positive-width invariant. -/
def rasterBad : RasterOverlayInput := { rasterIn with wMm := JSVal.num 0 }

/-- A valid vector overlay input. -/
def svgIn : SvgOverlayInput :=
  { xMm := JSVal.num 1, yMm := JSVal.num 1, scale := JSVal.num 1, rotationDeg := JSVal.num 0,
    svgS3Key := "overlays/x.svg" }

/-- C1 input: a one-entry surviving list combined with invalid flat singular
fields. -/
def pC1 : Params :=
  { sampleParams with
    seriesList := some [itemGood], seriesStart := none,
    seriesCount := JSVal.num 0, seriesColor := none }

/-- C2 input: a finite negative cut margin on otherwise valid parameters. -/
def pC2 : Params := { sampleParams with objectCutMarginMm := JSVal.num (-1) }

/-- C3 input: a zero series count on the singular path. -/
def pC3 : Params := { sampleParams with seriesCount := JSVal.num 0 }

/-- C4 input: a list mixing a valid and an invalid entry. -/
def pC4 : Params := { sampleParams with seriesList := some [itemGood, itemBad] }

/-- C5 input: the document id of the worked example of the spec. -/
def pC5 : Params := { sampleParams with documentId := "abc123" }

/-- C6 input: two raster overlays (one invalid) and one vector overlay. -/
def pC6 : Params :=
  { sampleParams with
    overlays := some [rasterIn, rasterBad], svgOverlays := some [svgIn] }

/-- C7 input: an explicit step of 2 on the singular path. -/
def pC7 : Params := { sampleParams with seriesStep := JSVal.num 2 }

/-- C9 input: a null singular x coordinate. -/
def pC9 : Params := { sampleParams with seriesXMm := JSVal.null }

/-- C9 input: a missing (undefined) singular y coordinate. -/
def pC9y : Params := { sampleParams with seriesYMm := JSVal.undef }

/-- C10 input: an explicit step of 0, a value the builder never validates. -/
def pC10 : Params := { sampleParams with seriesStep := JSVal.num 0 }

/-! The claims. -/

/-- Claim C1: whenever the mapped and filtered seriesList yields at least one
surviving entry, any returned payload carries series_list equal to exactly
the surviving entries and a series field equal to the first surviving entry,
and the flat singular-series fields are never validated: the builder
succeeds as soon as the job id, document id and object dimensions are valid,
no matter how invalid the flat fields are.  When no entry survives (or no
list is supplied, so that the plural flag is false), any returned payload
has no series_list key, carries the singular series shape, and the eight
singular-series validations have all passed. -/
theorem C1_shape_selection (p : Params) :
    (∀ l, p.seriesList = some l → survivors l ≠ [] →
       (∀ out, buildFinalRenderPayload p = Except.ok out →
          out.series_list = some (survivors l) ∧ out.series = (survivors l).head?) ∧
       (jobIdOk p → documentIdOk p → objectDimsOk p →
          buildFinalRenderPayload p = Except.ok (assemblePayload p))) ∧
    (hasSeriesListB p = false →
       ∀ out, buildFinalRenderPayload p = Except.ok out →
         out.series_list = none ∧ out.series = some (singularSeriesOut p) ∧
         seriesFieldsOk p) := by
  constructor
  · intro l hl hne
    have hb : hasSeriesListB p = true := (hasSeriesListB_some hl).mpr hne
    constructor
    · intro out hout
      rw [build_ok_eq hout]
      simp only [assemblePayload]
      rw [if_pos hb, if_pos hb, survivingSeriesList_some hl]
      exact ⟨rfl, rfl⟩
    · intro h1 h2 h3
      exact build_ok_plural h1 h2 h3 hb
  · intro hb out hout
    have hsing : singularPath p := hb
    have hfields := ((buildSucceeds_iff p).mp (buildSucceeds_of_ok hout)).2.2.2 hsing
    have hcond : ¬ (hasSeriesListB p = true) := by
      rw [hb]
      exact fun hc => Bool.noConfusion hc
    rw [build_ok_eq hout]
    simp only [assemblePayload]
    rw [if_neg hcond, if_neg hcond]
    exact ⟨rfl, rfl, hfields⟩

/-- Witness for C1 at a concrete input: a one-entry list with invalid flat
fields still succeeds and emits the plural shape with the compat series
field. -/
theorem C1_shape_selection_witness :
    survivors [itemGood] = [mapSeriesItem itemGood] ∧
    buildFinalRenderPayload pC1 = Except.ok (assemblePayload pC1) ∧
    (assemblePayload pC1).series_list = some (survivors [itemGood]) ∧
    (assemblePayload pC1).series = (survivors [itemGood]).head? := by
  have h := (C1_shape_selection pC1).1 [itemGood] rfl (by decide)
  have hok := h.2 (by decide) (by decide) (by decide)
  have hprops := h.1 (assemblePayload pC1) hok
  exact ⟨by decide, hok, hprops.1, hprops.2⟩

/-- Claim C2 counterexample: objectCutMarginMm coerces to the finite number
-1, strictly below 0, yet the builder succeeds instead of failing with an
out-of-range error. -/
theorem C2_counterexample :
    jsNumber pC2.objectCutMarginMm = some (-1) ∧ (-1 : ℚ) < 0 ∧
    buildSucceeds pC2 = true := by
  exact ⟨rfl, by decide, by decide⟩

/-- Claim C2 (amended): a finite negative cut margin is not validated: it is
clamped to the default 0 in the emitted object_mm block, and changing the
cut margin input never changes whether the builder succeeds. -/
theorem C2_cut_margin_clamped (p : Params) (out : FinalRenderPayload) (q : ℚ) (v : JSVal)
    (hq : jsNumber p.objectCutMarginMm = some q) (hneg : q < 0)
    (hok : buildFinalRenderPayload p = Except.ok out) :
    out.object_mm.cut_margin_mm = 0 ∧
    buildSucceeds { p with objectCutMarginMm := v } = buildSucceeds p := by
  constructor
  · rw [build_ok_eq hok]
    simp only [assemblePayload, objectMmOut, cutMarginMmVal]
    rw [hq]
    rw [if_neg]
    intro hc
    exact absurd hc.2 (not_le.mpr hneg)
  · refine buildSucceeds_eq_iff ?_
    rw [buildSucceeds_iff, buildSucceeds_iff]
    exact Iff.rfl

/-- Witness for the amended C2: at the concrete input the builder returns a
payload whose cut margin is 0. -/
theorem C2_witness :
    jsNumber pC2.objectCutMarginMm = some (-1) ∧
    buildFinalRenderPayload pC2 = Except.ok (assemblePayload pC2) ∧
    (assemblePayload pC2).object_mm.cut_margin_mm = 0 := by
  have hok : buildFinalRenderPayload pC2 = Except.ok (assemblePayload pC2) :=
    build_ok_singular (by decide) (by decide) (by decide) (by decide)
  have h := C2_cut_margin_clamped pC2 (assemblePayload pC2) (-1) JSVal.undef rfl
      (by decide) hok
  exact ⟨rfl, hok, h.1⟩

/-- Claim C3: the checks run in source order (job id, document id, object
dimensions, then on the singular path start, count, coordinates, font
family, font size, letter spacing, rotation, color), each failure aborting
with the exact error of the first violated check; the error result carries
no payload. -/
theorem C3_error_order (p : Params) :
    (¬ jobIdOk p → buildFinalRenderPayload p = Except.error "job_id is required") ∧
    (jobIdOk p → ¬ documentIdOk p →
       buildFinalRenderPayload p = Except.error "documentId is required") ∧
    (jobIdOk p → documentIdOk p → ¬ objectDimsOk p →
       buildFinalRenderPayload p =
         Except.error "object_mm.w and object_mm.h are required and must be > 0") ∧
    (jobIdOk p → documentIdOk p → objectDimsOk p → singularPath p → ¬ startOk p →
       buildFinalRenderPayload p = Except.error "series.start is required") ∧
    (jobIdOk p → documentIdOk p → objectDimsOk p → singularPath p → startOk p →
       ¬ countOk p →
       buildFinalRenderPayload p = Except.error "series.count is required and must be > 0") ∧
    (jobIdOk p → documentIdOk p → objectDimsOk p → singularPath p → startOk p → countOk p →
       ¬ coordsOk p →
       buildFinalRenderPayload p =
         Except.error "series requires object_mm coordinates (missing seriesXMm/seriesYMm)") ∧
    (jobIdOk p → documentIdOk p → objectDimsOk p → singularPath p → startOk p → countOk p →
       coordsOk p → ¬ fontFamilyOk p →
       buildFinalRenderPayload p = Except.error "series.font_family is required") ∧
    (jobIdOk p → documentIdOk p → objectDimsOk p → singularPath p → startOk p → countOk p →
       coordsOk p → fontFamilyOk p → ¬ fontSizeOk p →
       buildFinalRenderPayload p = Except.error "series.font_size_mm must be a number > 0") ∧
    (jobIdOk p → documentIdOk p → objectDimsOk p → singularPath p → startOk p → countOk p →
       coordsOk p → fontFamilyOk p → fontSizeOk p → ¬ spacingOk p →
       buildFinalRenderPayload p = Except.error "series.letter_spacing_mm must be a number") ∧
    (jobIdOk p → documentIdOk p → objectDimsOk p → singularPath p → startOk p → countOk p →
       coordsOk p → fontFamilyOk p → fontSizeOk p → spacingOk p → ¬ rotationOk p →
       buildFinalRenderPayload p = Except.error "series.rotation_deg must be a number") ∧
    (jobIdOk p → documentIdOk p → objectDimsOk p → singularPath p → startOk p → countOk p →
       coordsOk p → fontFamilyOk p → fontSizeOk p → spacingOk p → rotationOk p →
       ¬ colorOk p →
       buildFinalRenderPayload p = Except.error "series.color is required") :=
  ⟨fun h => build_error_job h,
   fun h1 h => build_error_document h1 h,
   fun h1 h2 h => build_error_dims h1 h2 h,
   fun h1 h2 h3 hs h => build_error_start h1 h2 h3 hs h,
   fun h1 h2 h3 hs h4 h => build_error_count h1 h2 h3 hs h4 h,
   fun h1 h2 h3 hs h4 h5 h => build_error_coords h1 h2 h3 hs h4 h5 h,
   fun h1 h2 h3 hs h4 h5 h6 h => build_error_fontFamily h1 h2 h3 hs h4 h5 h6 h,
   fun h1 h2 h3 hs h4 h5 h6 h7 h => build_error_fontSize h1 h2 h3 hs h4 h5 h6 h7 h,
   fun h1 h2 h3 hs h4 h5 h6 h7 h8 h => build_error_spacing h1 h2 h3 hs h4 h5 h6 h7 h8 h,
   fun h1 h2 h3 hs h4 h5 h6 h7 h8 h9 h =>
     build_error_rotationDeg h1 h2 h3 hs h4 h5 h6 h7 h8 h9 h,
   fun h1 h2 h3 hs h4 h5 h6 h7 h8 h9 h10 h =>
     build_error_color h1 h2 h3 hs h4 h5 h6 h7 h8 h9 h10 h⟩

/-- Witness for C3: with a zero count and every earlier check passing, the
builder aborts with exactly the count error. -/
theorem C3_error_order_witness :
    buildFinalRenderPayload pC3 = Except.error "series.count is required and must be > 0" := by
  have h := C3_error_order pC3
  exact h.2.2.2.2.1 (by decide) (by decide) (by decide) (by decide) (by decide) (by decide)

/-- Claim C4: a list mixing satisfying and violating entries never makes the
builder fail (the request-level checks still apply); the emitted series_list
is exactly the filter of the mapped entries, which preserves relative order,
contains every satisfying entry and omits every violating one. -/
theorem C4_item_pruning (p : Params) (l : List SeriesListItemInput)
    (hl : p.seriesList = some l)
    (hgood : ∃ s, s ∈ l ∧ keepSeriesItem (mapSeriesItem s) = true)
    (_hbad : ∃ s, s ∈ l ∧ keepSeriesItem (mapSeriesItem s) = false)
    (h1 : jobIdOk p) (h2 : documentIdOk p) (h3 : objectDimsOk p) :
    buildFinalRenderPayload p = Except.ok (assemblePayload p) ∧
    (assemblePayload p).series_list = some ((l.map mapSeriesItem).filter keepSeriesItem) ∧
    (∀ s, keepSeriesItem (mapSeriesItem s) = false →
       mapSeriesItem s ∉ (l.map mapSeriesItem).filter keepSeriesItem) ∧
    (∀ s, s ∈ l → keepSeriesItem (mapSeriesItem s) = true →
       mapSeriesItem s ∈ (l.map mapSeriesItem).filter keepSeriesItem) := by
  obtain ⟨sg, hsg, hkeep⟩ := hgood
  have hne : survivors l ≠ [] := by
    unfold survivors
    intro hc
    have hmem : mapSeriesItem sg ∈ (l.map mapSeriesItem).filter keepSeriesItem :=
      List.mem_filter.mpr ⟨List.mem_map_of_mem _ hsg, hkeep⟩
    rw [hc] at hmem
    exact absurd hmem (List.not_mem_nil _)
  have hb := (hasSeriesListB_some hl).mpr hne
  refine ⟨build_ok_plural h1 h2 h3 hb, ?_, ?_, ?_⟩
  · simp only [assemblePayload]
    rw [if_pos hb, survivingSeriesList_some hl]
    rfl
  · intro s hkeepf hmem
    have hk := (List.mem_filter.mp hmem).2
    rw [hk] at hkeepf
    exact Bool.noConfusion hkeepf
  · intro s hs hkeept
    exact List.mem_filter.mpr ⟨List.mem_map_of_mem _ hs, hkeept⟩

/-- Witness for C4: the mixed two-entry list keeps exactly the valid entry
and the builder succeeds. -/
theorem C4_item_pruning_witness :
    buildFinalRenderPayload pC4 = Except.ok (assemblePayload pC4) ∧
    (assemblePayload pC4).series_list = some [mapSeriesItem itemGood] := by
  have h := C4_item_pruning pC4 [itemGood, itemBad] rfl
      ⟨itemGood, by decide, by decide⟩ ⟨itemBad, by decide, by decide⟩
      (by decide) (by decide) (by decide)
  refine ⟨h.1, ?_⟩
  rw [h.2.1]
  decide

/-- Claim C5: every returned payload locates the source document at the key
built from the literal prefix, the trimmed document id and the literal
suffix. -/
theorem C5_derived_key (p : Params) (out : FinalRenderPayload)
    (hok : buildFinalRenderPayload p = Except.ok out) :
    out.svg_s3_key = "documents/raw/" ++ documentIdStr p ++ ".svg" := by
  rw [build_ok_eq hok]
  rfl

/-- Witness for C5: document id abc123 yields the exact key of the spec. -/
theorem C5_derived_key_witness :
    buildFinalRenderPayload pC5 = Except.ok (assemblePayload pC5) ∧
    (assemblePayload pC5).svg_s3_key = "documents/raw/abc123.svg" := by
  have hok : buildFinalRenderPayload pC5 = Except.ok (assemblePayload pC5) :=
    build_ok_singular (by decide) (by decide) (by decide) (by decide)
  refine ⟨hok, ?_⟩
  rw [C5_derived_key pC5 (assemblePayload pC5) hok]
  decide

/-- Claim C6: any emitted overlays list is exactly the surviving raster
entries followed by the surviving vector entries, each group being the
map-and-filter of its input in order; a raster entry survives exactly when
its data url is non-empty, its coordinates, dimensions and rotation are
finite and its dimensions are positive; a vector entry survives exactly when
its coordinates, scale and rotation are finite, its scale is positive and
its storage key is non-empty; and removing the overlay inputs never changes
whether the builder succeeds, so dropped entries cannot cause a
request-level error. -/
theorem C6_overlay_order (p : Params) (out : FinalRenderPayload) (ovs : List OverlayOut)
    (hok : buildFinalRenderPayload p = Except.ok out)
    (hovs : out.overlays = some ovs) :
    ovs = (imageOverlaysOut p).map OverlayOut.raster ++ (svgOverlaysOut p).map OverlayOut.svg ∧
    (∀ l, p.overlays = some l →
       imageOverlaysOut p = (l.map mapRasterOverlay).filter keepRasterOverlay) ∧
    (∀ l, p.svgOverlays = some l →
       svgOverlaysOut p = (l.map mapSvgOverlay).filter keepSvgOverlay) ∧
    (∀ o : RasterOverlayOut, keepRasterOverlay o = true ↔
       (o.data_url ≠ "" ∧ o.x_mm.isSome = true ∧ o.y_mm.isSome = true ∧
        o.w_mm.isSome = true ∧ o.h_mm.isSome = true ∧
        0 < o.w_mm.getD 0 ∧ 0 < o.h_mm.getD 0 ∧ o.rotation_deg.isSome = true)) ∧
    (∀ o : SvgOverlayOut, keepSvgOverlay o = true ↔
       (o.x_mm.isSome = true ∧ o.y_mm.isSome = true ∧ o.scale.isSome = true ∧
        0 < o.scale.getD 0 ∧ o.rotation_deg.isSome = true ∧ o.svg_s3_key ≠ "")) ∧
    buildSucceeds { p with overlays := none, svgOverlays := none } = buildSucceeds p := by
  refine ⟨?_, ?_, ?_, ?_, ?_, ?_⟩
  · rw [build_ok_eq hok] at hovs
    simp only [assemblePayload] at hovs
    by_cases he : (overlaysOut p).isEmpty
    · rw [if_pos he] at hovs
      exact Option.noConfusion hovs
    · rw [if_neg he] at hovs
      rw [← Option.some.inj hovs]
      rfl
  · intro l hl
    unfold imageOverlaysOut
    rw [hl]
  · intro l hl
    unfold svgOverlaysOut
    rw [hl]
  · intro o
    simp only [keepRasterOverlay, Bool.and_eq_true, bne_iff_ne, decide_eq_true_eq]
    tauto
  · intro o
    simp only [keepSvgOverlay, Bool.and_eq_true, bne_iff_ne, decide_eq_true_eq]
    tauto
  · refine buildSucceeds_eq_iff ?_
    rw [buildSucceeds_iff, buildSucceeds_iff]
    exact Iff.rfl

/-- Witness for C6: one invalid raster entry is dropped and the surviving
raster entry precedes the vector entry. -/
theorem C6_overlay_order_witness :
    buildFinalRenderPayload pC6 = Except.ok (assemblePayload pC6) ∧
    (assemblePayload pC6).overlays =
      some [OverlayOut.raster (mapRasterOverlay rasterIn),
            OverlayOut.svg (mapSvgOverlay svgIn)] := by
  have hok : buildFinalRenderPayload pC6 = Except.ok (assemblePayload pC6) :=
    build_ok_singular (by decide) (by decide) (by decide) (by decide)
  have hovs : (assemblePayload pC6).overlays = some (overlaysOut pC6) := by decide
  have h := C6_overlay_order pC6 (assemblePayload pC6) (overlaysOut pC6) hok hovs
  refine ⟨hok, ?_⟩
  rw [hovs, h.1]
  decide

/-- Claim C7: in every mapped seriesList entry the step key is present
exactly when the supplied step coerces to a finite number different from 1,
every entry of an emitted series_list is such a mapped entry of the input
list, and the singular series emitted on the singular path obeys the same
step rule for the flat step parameter. -/
theorem C7_step_omission (p : Params) (out : FinalRenderPayload)
    (hok : buildFinalRenderPayload p = Except.ok out) :
    (∀ itm : SeriesListItemInput,
       ((jsNumber itm.step = none ∨ jsNumber itm.step = some 1) →
          (mapSeriesItem itm).step = none) ∧
       (∀ q, jsNumber itm.step = some q → q ≠ 1 → (mapSeriesItem itm).step = some q)) ∧
    (∀ sl, out.series_list = some sl → ∀ s, s ∈ sl →
       ∃ itm, itm ∈ p.seriesList.getD [] ∧ s = mapSeriesItem itm) ∧
    (singularPath p → ∀ s, out.series = some s →
       ((stepNum p = none ∨ stepNum p = some 1) → s.step = none) ∧
       (∀ q, stepNum p = some q → q ≠ 1 → s.step = some q)) := by
  refine ⟨?_, ?_, ?_⟩
  · intro itm
    constructor
    · intro h
      simp only [mapSeriesItem]
      rcases h with h | h <;> simp [h]
    · intro q hq hne
      simp only [mapSeriesItem]
      rw [hq]
      simp [hne]
  · intro sl hsl s hs
    rw [build_ok_eq hok] at hsl
    simp only [assemblePayload] at hsl
    by_cases hb : hasSeriesListB p = true
    · rw [if_pos hb] at hsl
      unfold survivingSeriesList at hsl
      obtain ⟨l0, hp, hf⟩ := Option.map_eq_some'.mp hsl
      rw [← hf] at hs
      obtain ⟨hmap, -⟩ := List.mem_filter.mp hs
      obtain ⟨itm, hitm, heq⟩ := List.mem_map.mp hmap
      refine ⟨itm, ?_, heq.symm⟩
      rw [hp]
      exact hitm
    · rw [if_neg hb] at hsl
      exact Option.noConfusion hsl
  · intro hsing s hser
    have hb : ¬ (hasSeriesListB p = true) := by
      rw [hsing]
      exact fun hc => Bool.noConfusion hc
    rw [build_ok_eq hok] at hser
    simp only [assemblePayload] at hser
    rw [if_neg hb] at hser
    rw [← Option.some.inj hser]
    constructor
    · intro h
      simp only [singularSeriesOut]
      rcases h with h | h <;> simp [h]
    · intro q hq hne
      simp only [singularSeriesOut]
      rw [hq]
      simp [hne]

/-- Witness for C7: an explicit step of 2 is emitted as step 2, and an
absent step yields no step key in a mapped list entry. -/
theorem C7_step_omission_witness :
    buildFinalRenderPayload pC7 = Except.ok (assemblePayload pC7) ∧
    (assemblePayload pC7).series.map SeriesOut.step = some (some 2) ∧
    (mapSeriesItem itemGood).step = none := by
  have hok : buildFinalRenderPayload pC7 = Except.ok (assemblePayload pC7) :=
    build_ok_singular (by decide) (by decide) (by decide) (by decide)
  have h := C7_step_omission pC7 (assemblePayload pC7) hok
  have hser : (assemblePayload pC7).series = some (singularSeriesOut pC7) := by decide
  have hstep := (h.2.2 (by decide) (singularSeriesOut pC7) hser).2 2 rfl (by decide)
  refine ⟨hok, ?_, (h.1 itemGood).1 (Or.inl (by decide))⟩
  rw [hser, Option.map_some', hstep]

/-- Claim C8: a returned payload omits the custom_fonts key whenever the
filtered font collection is empty or the parameter is absent, omits the
overlays key whenever the combined filtered overlay sequence is empty, and
neither key is ever present holding an empty array. -/
theorem C8_optional_omission (p : Params) (out : FinalRenderPayload)
    (hok : buildFinalRenderPayload p = Except.ok out) :
    ((p.customFonts = none ∨ customFontsOut p = some []) → out.custom_fonts = none) ∧
    (overlaysOut p = [] → out.overlays = none) ∧
    out.custom_fonts ≠ some [] ∧ out.overlays ≠ some [] := by
  rw [build_ok_eq hok]
  refine ⟨?_, ?_, ?_, ?_⟩
  · intro h
    simp only [assemblePayload]
    rcases h with h | h
    · have hcf : customFontsOut p = none := by
        unfold customFontsOut
        rw [h]
        rfl
      rw [hcf]
    · rw [h]
      rfl
  · intro h
    simp only [assemblePayload]
    rw [h]
    rfl
  · simp only [assemblePayload]
    cases hcf : customFontsOut p with
    | none => exact fun hc => Option.noConfusion hc
    | some l =>
      show (if l.isEmpty = true then none else some l) ≠ some []
      by_cases hl : l.isEmpty
      · rw [if_pos hl]
        exact fun hc => Option.noConfusion hc
      · rw [if_neg hl]
        intro hc
        rw [Option.some.inj hc] at hl
        exact hl rfl
  · simp only [assemblePayload]
    by_cases he : (overlaysOut p).isEmpty
    · rw [if_pos he]
      exact fun hc => Option.noConfusion hc
    · rw [if_neg he]
      intro hc
      rw [Option.some.inj hc] at he
      exact he rfl

/-- Witness for C8: with no fonts and no overlays supplied, both keys are
absent. -/
theorem C8_optional_omission_witness :
    buildFinalRenderPayload sampleParams = Except.ok (assemblePayload sampleParams) ∧
    (assemblePayload sampleParams).custom_fonts = none ∧
    (assemblePayload sampleParams).overlays = none := by
  have hok : buildFinalRenderPayload sampleParams = Except.ok (assemblePayload sampleParams) :=
    build_ok_singular (by decide) (by decide) (by decide) (by decide)
  have h := C8_optional_omission sampleParams (assemblePayload sampleParams) hok
  exact ⟨hok, h.1 (Or.inl rfl), h.2.1 (by decide)⟩

/-- Claim C9: a seriesList entry whose x or y coordinate is null or the
empty string is coerced to the finite number 0, so it passes the
coordinate-finiteness filter with that coordinate emitted as 0, whereas on
the singular path a null or missing seriesXMm or seriesYMm aborts the whole
request with the coordinates error. -/
theorem C9_null_coordinate (itm : SeriesListItemInput) (p : Params) :
    ((itm.xMm = JSVal.null ∨ itm.xMm = JSVal.str "") → (mapSeriesItem itm).x_mm = some 0) ∧
    ((itm.yMm = JSVal.null ∨ itm.yMm = JSVal.str "") → (mapSeriesItem itm).y_mm = some 0) ∧
    (((p.seriesXMm = JSVal.null ∨ p.seriesXMm = JSVal.undef) ∨
      (p.seriesYMm = JSVal.null ∨ p.seriesYMm = JSVal.undef)) →
       jobIdOk p → documentIdOk p → objectDimsOk p → singularPath p → startOk p → countOk p →
       buildFinalRenderPayload p =
         Except.error "series requires object_mm coordinates (missing seriesXMm/seriesYMm)") := by
  refine ⟨?_, ?_, ?_⟩
  · intro h
    simp only [mapSeriesItem]
    rcases h with h | h <;> rw [h] <;> decide
  · intro h
    simp only [mapSeriesItem]
    rcases h with h | h <;> rw [h] <;> decide
  · intro h h1 h2 h3 hsing h4 h5
    have hcoords : ¬ coordsOk p := by
      unfold coordsOk
      rcases h with h | h
      · have hx : seriesXNum p = none := by
          unfold seriesXNum
          rcases h with h | h <;> rw [h] <;> rfl
        rw [hx]
        rintro ⟨hc, -⟩
        exact Bool.noConfusion hc
      · have hy : seriesYNum p = none := by
          unfold seriesYNum
          rcases h with h | h <;> rw [h] <;> rfl
        rw [hy]
        rintro ⟨-, hc⟩
        exact Bool.noConfusion hc
    exact build_error_coords h1 h2 h3 hsing h4 h5 hcoords

/-- Witness for C9: a null list coordinate is emitted as 0, while a null
singular x coordinate and a missing singular y coordinate each abort the
request with the coordinates error. -/
theorem C9_null_coordinate_witness :
    (mapSeriesItem itemNull).x_mm = some 0 ∧
    buildFinalRenderPayload pC9 =
      Except.error "series requires object_mm coordinates (missing seriesXMm/seriesYMm)" ∧
    buildFinalRenderPayload pC9y =
      Except.error "series requires object_mm coordinates (missing seriesXMm/seriesYMm)" := by
  have h := C9_null_coordinate itemNull pC9
  have hy := C9_null_coordinate itemNull pC9y
  exact ⟨h.1 (Or.inl rfl),
    h.2.2 (Or.inl (Or.inl rfl)) (by decide) (by decide) (by decide) (by decide) (by decide)
      (by decide),
    hy.2.2 (Or.inr (Or.inr rfl)) (by decide) (by decide) (by decide) (by decide) (by decide)
      (by decide)⟩

/-- Claim C10: the step value is never validated: any finite step different
from 1 is emitted verbatim in a mapped list entry, the per-entry filter
ignores the step entirely, changing the flat step input never changes
whether the builder succeeds, and on a successful singular run the emitted
series carries the supplied step verbatim. -/
theorem C10_step_unvalidated (p : Params) (itm : SeriesListItemInput) (q : ℚ) (v : JSVal)
    (out : FinalRenderPayload) :
    (jsNumber itm.step = some q → q ≠ 1 → (mapSeriesItem itm).step = some q) ∧
    keepSeriesItem (mapSeriesItem { itm with step := v }) = keepSeriesItem (mapSeriesItem itm) ∧
    buildSucceeds { p with seriesStep := v } = buildSucceeds p ∧
    (buildFinalRenderPayload p = Except.ok out → singularPath p → stepNum p = some q →
       q ≠ 1 → ∃ s, out.series = some s ∧ s.step = some q) := by
  refine ⟨?_, rfl, ?_, ?_⟩
  · intro hq hne
    simp only [mapSeriesItem]
    rw [hq]
    simp [hne]
  · refine buildSucceeds_eq_iff ?_
    rw [buildSucceeds_iff, buildSucceeds_iff]
    exact Iff.rfl
  · intro hok hsing hq hne
    have hb : ¬ (hasSeriesListB p = true) := by
      rw [hsing]
      exact fun hc => Bool.noConfusion hc
    refine ⟨singularSeriesOut p, ?_, ?_⟩
    · rw [build_ok_eq hok]
      simp only [assemblePayload]
      rw [if_neg hb]
    · simp only [singularSeriesOut]
      rw [hq]
      simp [hne]

/-- Witness for C10: a step of 0, outside any positivity or integrality
constraint, is emitted verbatim. -/
theorem C10_step_unvalidated_witness :
    stepNum pC10 = some 0 ∧
    buildFinalRenderPayload pC10 = Except.ok (assemblePayload pC10) ∧
    (assemblePayload pC10).series.map SeriesOut.step = some (some 0) := by
  have hok : buildFinalRenderPayload pC10 = Except.ok (assemblePayload pC10) :=
    build_ok_singular (by decide) (by decide) (by decide) (by decide)
  obtain ⟨s, hs, hstep⟩ :=
    (C10_step_unvalidated pC10 itemGood 0 JSVal.undef (assemblePayload pC10)).2.2.2
      hok (by decide) rfl (by decide)
  refine ⟨rfl, hok, ?_⟩
  rw [hs, Option.map_some', hstep]
